import Mathlib

/-!
# Verification of the badoo/file-streamer core

Shallow embedding of the subscription/event-routing engine of the
`file_streamer` Go package: the listener wake channel (`listener.go`),
the per-listener streaming session loop (`Streamer.StreamTo`), the
subscription registry and event router (`subscribeListener`,
`unsubscribeListener`, `eventsRouter`), the idle timer (`getTimer`),
and the lifecycle state machine (`Start`, `Stop`, `IsRunning`).

Go channels are modelled by their observable buffer state (number of
pending tokens plus a closed flag); the session loop is modelled as a
fuelled function over oracles describing the outcome of each copy pass
and over the events observed at blocking points; the registry is an
association list mirroring the Go map of maps.
-/

namespace FileStreamer

/-! ## Listener and its wake channel (`listener.go`)

`newDataNotifications` is `make(chan newDataEvent, 100)`.  A Go channel
is observed through the number of buffered tokens and whether it has
been closed; receiving from a closed channel first yields the buffered
tokens and afterwards reports `isOpen = false`. -/

/-- Capacity of a listener's wake channel: `make(newDataChan, 100)`. -/
def chanCap : Nat := 100

/-- Observable state of a listener's buffered wake channel. -/
structure WakeChan where
  pending : Nat
  closed : Bool
deriving DecidableEq

/-- State of a `Listener` relevant to the wake protocol: its channel and
the `isClosed` flag. -/
structure Listener where
  chan : WakeChan
  isClosed : Bool
deriving DecidableEq

/-- `NewListener`: allocates the capacity-100 channel and immediately
sends one `newDataEvent{}` into it ("Force initial read"), so the fresh
listener holds exactly one pre-armed pending wake. -/
def NewListener : Listener :=
  { chan := { pending := 1, closed := false }, isClosed := false }

/-- `Listener.Close`: idempotent via the `isClosed` flag; the first call
closes the wake channel (buffered tokens stay receivable). -/
def closeListener (l : Listener) : Listener :=
  if l.isClosed then l
  else { chan := { pending := l.chan.pending, closed := true }, isClosed := true }

/-- The per-channel dispatch step of `eventsRouter`:
`if len(toNotify) < cap(toNotify) { toNotify <- newDataEvent{} }`.
The send is guarded by the buffer having room, so it never blocks. -/
def trySend (c : WakeChan) : WakeChan :=
  if c.pending < chanCap then { pending := c.pending + 1, closed := c.closed } else c

/-! ## Per-wake processing inside `Streamer.StreamTo`

One wake is processed by: re-seek, `io.CopyBuffer` into the sink, on
copy error write a diagnostic into the sink and flush best-effort and
return the error; otherwise flush, on flush error return the error
(logged only, nothing written into the sink); otherwise `os.Stat` the
file and end the session without error when it is gone. -/

/-- Outcome of the environment for one copy pass: whether the copy
fails, whether the subsequent flush fails, and whether the source file
still exists at the post-copy `os.Stat` check. -/
structure PassOutcome where
  copyErr : Option String
  flushErr : Option String
  fileExists : Bool
deriving DecidableEq

/-- Operations the session performs on the listener's sink
(`listener.writeDataTo`). -/
inductive SinkOp
  | copyData
  | diag (msg : String)
  | flushOp
deriving DecidableEq

/-- Why a session's loop ended. -/
inductive ExitCause
  | closedChan
  | timerFired
  | copyFailed
  | flushFailed
  | fileGone
deriving DecidableEq

/-- Result of processing one wake token in `StreamTo`. -/
inductive StepOut
  | fail (e : String) (sink : List SinkOp) (cause : ExitCause)
  | finish (sink : List SinkOp)
  | cont (sink : List SinkOp)
deriving DecidableEq

/-- The body of the `case _, isOpen := <-listener.newDataNotifications`
branch of `StreamTo` (after `isOpen` was found true), translated from
`streamer.go`. -/
def processWake (p : PassOutcome) : StepOut :=
  match p.copyErr with
  | some e =>
      .fail e [.copyData, .diag ("Could not stream file data: " ++ e), .flushOp]
        .copyFailed
  | none =>
      match p.flushErr with
      | some e => .fail e [.copyData, .flushOp] .flushFailed
      | none =>
          if p.fileExists then .cont [.copyData, .flushOp]
          else .finish [.copyData, .flushOp]

/-- `true` iff a diagnostic message was written among the sink operations. -/
def hasDiag : List SinkOp → Bool
  | [] => false
  | .diag _ :: _ => true
  | _ :: rest => hasDiag rest

/-! ## The `StreamTo` loop

The loop suspends on `select { case <-newDataNotifications; case
<-timeoutTimer.C }`.  The wake channel is ready whenever it holds a
token or is closed, and the Go select then takes that branch (the timer
models "T of inactivity", so it can only win while the session is
actually blocked).  When the session blocks on an empty open channel the
next observed event is either a token arriving (a dispatch), the channel
being closed (`Listener.Close`), or the idle timer firing.  `getTimer`
(`timer.go`) returns a drained, never-firing timer for duration 0, so a
timer event is impossible when `timeout == 0`.  After every processed
wake that does not end the session, `if timeout != 0 {
timeoutTimer.Reset(timeout) }` runs; the reset is recorded as a
`timerReset` entry in the trace. -/

/-- Model of `getTimer` (`timer.go`): for duration 0 the timer's channel
is drained once and never fires again; any positive duration yields a
timer that can fire. -/
def getTimerFires (duration : Nat) : Bool := duration != 0

/-- An event observed while the session is blocked on an empty, open
wake channel. -/
inductive BlockEvent
  | tokenArrives
  | chanCloses
  | timerFires
deriving DecidableEq

/-- Trace entries recorded by the session loop: sink operations plus the
idle-timer reset call. -/
inductive TraceOp
  | sink (op : SinkOp)
  | timerReset
deriving DecidableEq

/-- Final observation of one `StreamTo` session loop. -/
inductive SessResult
  | done (cause : ExitCause) (err : Option String) (passes : Nat) (trace : List TraceOp)
  | stuck (passes : Nat) (trace : List TraceOp)
deriving DecidableEq

/-- Lift sink operations into the session trace. -/
def sinkTrace (ops : List SinkOp) : List TraceOp := ops.map .sink

/-- One iteration of the `for { select { ... } }` loop of `StreamTo`;
`recur` continues the loop.  When the channel holds a token the wake
branch receives and processes it; on an empty closed channel the receive
reports `isOpen = false` and the session returns nil; otherwise the
session blocks and the next observed event is consumed (a `timerFires`
event cannot be delivered when `getTimer` returned the drained timer). -/
def streamStep
    (recur : WakeChan → List PassOutcome → List BlockEvent → Nat → List TraceOp → SessResult)
    (timeout : Nat) (ch : WakeChan) (passes : List PassOutcome) (blocks : List BlockEvent)
    (n : Nat) (tr : List TraceOp) : SessResult :=
  if ch.pending ≠ 0 then
    match passes with
    | [] => .stuck n tr
    | p :: ps =>
        match processWake p with
        | .fail e sink cause => .done cause (some e) (n + 1) (tr ++ sinkTrace sink)
        | .finish sink => .done .fileGone none (n + 1) (tr ++ sinkTrace sink)
        | .cont sink =>
            recur { pending := ch.pending - 1, closed := ch.closed } ps blocks (n + 1)
              (tr ++ sinkTrace sink ++ (if timeout ≠ 0 then [.timerReset] else []))
  else if ch.closed then
    .done .closedChan none n tr
  else
    match blocks with
    | [] => .stuck n tr
    | .tokenArrives :: bs => recur { pending := ch.pending + 1, closed := ch.closed } passes bs n tr
    | .chanCloses :: bs => recur { pending := ch.pending, closed := true } passes bs n tr
    | .timerFires :: bs =>
        if getTimerFires timeout then .done .timerFired none n tr
        else recur ch passes bs n tr

/-- The `StreamTo` loop, fuelled.  `passes` is the oracle giving the
outcome of each copy pass, `blocks` the events observed at blocking
points, `n` counts performed copy passes and `tr` accumulates the
trace. -/
def streamLoopF : Nat → Nat → WakeChan → List PassOutcome → List BlockEvent →
    Nat → List TraceOp → SessResult
  | 0, _, _, _, _, n, tr => .stuck n tr
  | fuel + 1, timeout, ch, passes, blocks, n, tr =>
      streamStep (fun ch2 ps2 bs2 n2 tr2 => streamLoopF fuel timeout ch2 ps2 bs2 n2 tr2)
        timeout ch passes blocks n tr

/-! ## Subscription registry (`subscribeListener`, `unsubscribeListener`)

`subscriptions` is `map[string]map[newDataChan]empty`, owned by the
router goroutine.  Paths are strings; a listener's wake channel is
identified by an abstract id.  The Go map is modelled as an association
list; sets of channel ids as duplicate-free lists. -/

abbrev Path := String

abbrev ChanId := Nat

/-- The router's `subscriptions` map: watched path to the set of
subscribed wake-channel ids. -/
abbrev Registry := List (Path × List ChanId)

/-- Go map read `subs[p]`: `some` the stored set, `none` when absent. -/
def lookupReg : Registry → Path → Option (List ChanId)
  | [], _ => none
  | (q, l) :: r, p => if q = p then some l else lookupReg r p

/-- Go map write `subs[p] = l`: update the entry, inserting when absent. -/
def setReg : Registry → Path → List ChanId → Registry
  | [], p, l => [(p, l)]
  | (q, m) :: r, p, l => if q = p then (p, l) :: r else (q, m) :: setReg r p l

/-- Go map `delete(subs, p)`. -/
def removeKey (r : Registry) (p : Path) : Registry :=
  r.filter (fun e => decide (e.1 ≠ p))

/-- Set insert `set[c] = empty{}`. -/
def insertChan (c : ChanId) (l : List ChanId) : List ChanId :=
  if c ∈ l then l else l ++ [c]

/-- Set delete `delete(set, c)`. -/
def removeChan (c : ChanId) (l : List ChanId) : List ChanId :=
  l.filter (fun d => decide (d ≠ c))

/-- `Streamer.subscribeListener`: when the path has no entry, create one
and request an `fsNotify.Add` watch registration; then add the channel
to the path's set.  The returned flag reports whether the watch
registration was requested. -/
def subscribeListener (r : Registry) (p : Path) (c : ChanId) : Registry × Bool :=
  let fresh := (lookupReg r p).isNone
  let r1 := if fresh then setReg r p [] else r
  let cur := (lookupReg r1 p).getD []
  (setReg r1 p (insertChan c cur), fresh)

/-- `Streamer.unsubscribeListener`: remove the channel from the path's
set; when the set becomes empty, delete the entry and request an
`fsNotify.Remove` watch de-registration.  The returned flag reports
whether the de-registration was requested. -/
def unsubscribeListener (r : Registry) (p : Path) (c : ChanId) : Registry × Bool :=
  let cur := (lookupReg r p).getD []
  let cur2 := removeChan c cur
  if cur2.isEmpty then (removeKey r p, true)
  else (setReg r p cur2, false)

/-- `subscribeListener` together with the logging around the
`fsNotify.Add` call: a registration failure is only logged, never
returned.  `addErr` is the outcome of `fsNotify.Add` (consulted only
when the call is made, i.e. on a fresh path). -/
def subscribeListenerLogged (r : Registry) (p : Path) (c : ChanId)
    (addErr : Option String) : Registry × List String :=
  let res := subscribeListener r p c
  let failLog :=
    if res.2 then
      match addErr with
      | some e =>
          ["Failed to register new fsNotify listener for file " ++ p ++ ": " ++ e]
      | none => []
    else []
  (res.1, failLog ++ ["New listener for " ++ p ++ " file"])

/-- One subscribe or unsubscribe request serviced by the router. -/
inductive RegOp
  | sub (p : Path) (c : ChanId)
  | unsub (p : Path) (c : ChanId)
deriving DecidableEq

/-- Apply one registry operation (ignoring the watch-request flag). -/
def applyRegOp (r : Registry) : RegOp → Registry
  | .sub p c => (subscribeListener r p c).1
  | .unsub p c => (unsubscribeListener r p c).1

/-- Apply a sequence of subscribe/unsubscribe operations. -/
def applyRegOps (r : Registry) (ops : List RegOp) : Registry :=
  ops.foldl applyRegOp r

/-! ## The event router (`eventsRouter`)

The main loop selects over subscribe requests, unsubscribe requests and
the `changedFileNames` channel; when the latter is closed it breaks out
and enters the drain loop `for len(subscriptions) != 0 { select
subscribe/unsubscribe }`.  Change events mutate listener channels, not
the registry, so the registry evolution is fully captured here. -/

/-- An event arriving at the router: a subscribe or unsubscribe request,
a changed-file name, or the closing of the `changedFileNames` channel. -/
inductive RouterEv
  | sub (p : Path) (c : ChanId)
  | unsub (p : Path) (c : ChanId)
  | change (p : Path)
  | closeEvents
deriving DecidableEq

/-- Observation of a router run over a finite event script. -/
inductive RouterOutcome
  | exited (r : Registry)
  | blockedDraining (r : Registry)
  | routing (r : Registry)
deriving DecidableEq

/-- The drain phase of `eventsRouter`: after `changedFileNames` closed,
keep servicing subscribe/unsubscribe requests while the registry is
nonempty; return as soon as it is empty.  Change events can no longer be
delivered (their channel is closed); a script that still holds one has
it skipped, and well-formedness of scripts rules this out. -/
def routerDrain : Registry → List RouterEv → RouterOutcome
  | r, [] => if r.isEmpty then .exited r else .blockedDraining r
  | r, e :: rest =>
      if r.isEmpty then .exited r
      else
        match e with
        | .sub p c => routerDrain (subscribeListener r p c).1 rest
        | .unsub p c => routerDrain (unsubscribeListener r p c).1 rest
        | _ => routerDrain r rest

/-- The main loop of `eventsRouter` over a finite event script: service
subscribes, unsubscribes and change events (which leave the registry
unchanged) until `changedFileNames` closes, then switch to the drain
phase. -/
def routerRun : Registry → List RouterEv → RouterOutcome
  | r, [] => .routing r
  | r, .sub p c :: rest => routerRun (subscribeListener r p c).1 rest
  | r, .unsub p c :: rest => routerRun (unsubscribeListener r p c).1 rest
  | r, .change _ :: rest => routerRun r rest
  | r, .closeEvents :: rest => routerDrain r rest

/-- A script is well formed when nothing follows the closing of the
change-event channel except subscribe/unsubscribe requests: once
`changedFileNames` is closed it delivers no further values. -/
def wfScript : List RouterEv → Bool
  | [] => true
  | .closeEvents :: rest =>
      rest.all fun e =>
        match e with
        | .sub _ _ => true
        | .unsub _ _ => true
        | _ => false
  | _ :: rest => wfScript rest

/-! ## Lifecycle state machine (`Start`, `Stop`, `IsRunning`)

`state` is one of the four `state*` constants guarded by `s.mu`.  `Start`
checks-and-sets Stopped→Starting under the lock, runs `init` (which can
fail), and on success sets Running; on `init` failure it returns that
error with the state left at Starting.  `Stop` checks-and-sets
Running→Stopping, tears the workers down, and sets Stopped. -/

/-- The engine states `stateStopped`, `stateStarting`, `stateRunning`,
`stateStopping`. -/
inductive EngState
  | stopped
  | starting
  | running
  | stopping
deriving DecidableEq

/-- What `Start` returns: `ErrRunning`, the `init` error, or success. -/
inductive StartResult
  | errRunning
  | errInit
  | ok
deriving DecidableEq

/-- What `Stop` returns: `ErrNotRunning` or success. -/
inductive StopResult
  | errNotRunning
  | ok
deriving DecidableEq

/-- `Streamer.Start`, with `initFails` the outcome of `s.init()`:
rejected with `ErrRunning` unless Stopped; on init failure the error is
returned with the state left at Starting; otherwise the state reaches
Running. -/
def startOp (s : EngState) (initFails : Bool) : EngState × StartResult :=
  if s ≠ .stopped then (s, .errRunning)
  else if initFails then (.starting, .errInit)
  else (.running, .ok)

/-- The sequence of `state` values written during one `Start` call
(including the initial state). -/
def startTrace (s : EngState) (initFails : Bool) : List EngState :=
  if s ≠ .stopped then [s]
  else if initFails then [s, .starting]
  else [s, .starting, .running]

/-- `Streamer.Stop`: rejected with `ErrNotRunning` unless Running;
otherwise passes through Stopping and ends Stopped. -/
def stopOp (s : EngState) : EngState × StopResult :=
  if s ≠ .running then (s, .errNotRunning)
  else (.stopped, .ok)

/-- The sequence of `state` values written during one `Stop` call
(including the initial state). -/
def stopTrace (s : EngState) : List EngState :=
  if s ≠ .running then [s]
  else [s, .stopping, .stopped]

/-- `Streamer.IsRunning`: lock-protected `state == stateRunning`. -/
def isRunningState (s : EngState) : Bool := s = .running

/-- The single-step edges of the intended lifecycle cycle
Stopped→Starting→Running→Stopping→Stopped. -/
def stepOK : EngState → EngState → Bool
  | .stopped, .starting => true
  | .starting, .running => true
  | .running, .stopping => true
  | .stopping, .stopped => true
  | _, _ => false

/-- Every consecutive pair of the list is an allowed lifecycle edge. -/
def chainOK : List EngState → Bool
  | [] => true
  | [_] => true
  | a :: b :: rest => stepOK a b && chainOK (b :: rest)

/-- An external lifecycle call: `Start` (with its `init` outcome) or
`Stop`. -/
inductive LcOp
  | start (initFails : Bool)
  | stop
deriving DecidableEq

/-- The state reached after one lifecycle call. -/
def lcStep (s : EngState) : LcOp → EngState
  | .start b => (startOp s b).1
  | .stop => (stopOp s).1

/-- The state reached after a sequence of lifecycle calls. -/
def lcRun (s : EngState) (ops : List LcOp) : EngState :=
  ops.foldl lcStep s

/-! ## Remaining observation helpers -/

/-- What `StreamTo` returns: the `ErrNotRunning` rejection or the
observation of the session loop. -/
inductive StreamToResult
  | notRunning
  | session (r : SessResult)
deriving DecidableEq

/-- `Streamer.StreamTo`: rejected with `ErrNotRunning` unless the engine
is Running; otherwise runs the session loop on the listener's wake
channel (the subscribe/unsubscribe bracketing mutates the registry, not
the loop's observable result). -/
def StreamTo (engine : EngState) (l : Listener) (timeout fuel : Nat)
    (passes : List PassOutcome) (blocks : List BlockEvent) : StreamToResult :=
  if isRunningState engine then .session (streamLoopF fuel timeout l.chan passes blocks 0 [])
  else .notRunning

/-- `true` iff the session ended through the idle-timer branch. -/
def timedOut : SessResult → Bool
  | .done .timerFired _ _ _ => true
  | _ => false

/-- The set of wake-channel ids currently subscribed to a path (empty
when the path has no registry entry, matching the Go nil-map read). -/
def subscribers (r : Registry) (p : Path) : List ChanId :=
  (lookupReg r p).getD []

/-- The registry invariant: every present entry has a nonempty
subscriber set. -/
def RegInv (r : Registry) : Prop :=
  ∀ p l, lookupReg r p = some l → l ≠ []

/-! ## Helper lemmas -/

theorem lookupReg_setReg_self (r : Registry) (p : Path) (l : List ChanId) :
    lookupReg (setReg r p l) p = some l := by
  induction r with
  | nil => simp [setReg, lookupReg]
  | cons e r ih =>
      obtain ⟨a, m⟩ := e
      by_cases h : a = p
      · simp [setReg, h, lookupReg]
      · simp [setReg, h, lookupReg, ih]

theorem lookupReg_setReg_ne (r : Registry) (p q : Path) (l : List ChanId)
    (h : q ≠ p) : lookupReg (setReg r p l) q = lookupReg r q := by
  have hpq : ¬ p = q := fun he => h he.symm
  induction r with
  | nil => simp [setReg, lookupReg, hpq]
  | cons e r ih =>
      obtain ⟨a, m⟩ := e
      by_cases ha : a = p
      · subst ha
        simp [setReg, lookupReg, hpq]
      · simp [setReg, ha, lookupReg, ih]

theorem removeKey_cons (a : Path) (m : List ChanId) (r : Registry) (p : Path) :
    removeKey ((a, m) :: r) p =
      if a = p then removeKey r p else (a, m) :: removeKey r p := by
  by_cases h : a = p <;> simp [removeKey, List.filter_cons, h]

theorem lookupReg_removeKey_self (r : Registry) (p : Path) :
    lookupReg (removeKey r p) p = none := by
  induction r with
  | nil => simp [removeKey, lookupReg]
  | cons e r ih =>
      obtain ⟨a, m⟩ := e
      rw [removeKey_cons]
      by_cases h : a = p
      · rw [if_pos h]
        exact ih
      · rw [if_neg h]
        simpa [lookupReg, h] using ih

theorem lookupReg_removeKey_ne (r : Registry) (p q : Path) (h : q ≠ p) :
    lookupReg (removeKey r p) q = lookupReg r q := by
  induction r with
  | nil => simp [removeKey, lookupReg]
  | cons e r ih =>
      obtain ⟨a, m⟩ := e
      rw [removeKey_cons]
      by_cases ha : a = p
      · rw [if_pos ha]
        have haq : ¬ a = q := by
          rw [ha]
          exact fun he => h he.symm
        rw [ih]
        simp [lookupReg, haq]
      · rw [if_neg ha]
        simp [lookupReg, ih]

theorem lookup_subscribe_self (r : Registry) (p : Path) (c : ChanId) :
    lookupReg (subscribeListener r p c).1 p =
      some (insertChan c ((lookupReg r p).getD [])) := by
  simp only [subscribeListener]
  rw [lookupReg_setReg_self]
  by_cases hf : (lookupReg r p).isNone
  · rw [if_pos hf, lookupReg_setReg_self]
    rw [Option.isNone_iff_eq_none] at hf
    rw [hf]
    simp
  · rw [if_neg hf]

theorem lookup_subscribe_ne (r : Registry) (p q : Path) (c : ChanId) (h : q ≠ p) :
    lookupReg (subscribeListener r p c).1 q = lookupReg r q := by
  simp only [subscribeListener]
  rw [lookupReg_setReg_ne _ _ _ _ h]
  by_cases hf : (lookupReg r p).isNone
  · rw [if_pos hf]
    exact lookupReg_setReg_ne _ _ _ _ h
  · rw [if_neg hf]

theorem lookup_unsubscribe_self (r : Registry) (p : Path) (c : ChanId) :
    lookupReg (unsubscribeListener r p c).1 p =
      (if (removeChan c (subscribers r p)).isEmpty then none
       else some (removeChan c (subscribers r p))) := by
  simp only [unsubscribeListener, subscribers]
  by_cases he : (removeChan c ((lookupReg r p).getD [])).isEmpty
  · rw [if_pos he, if_pos he]
    exact lookupReg_removeKey_self r p
  · rw [if_neg he, if_neg he]
    exact lookupReg_setReg_self _ _ _

theorem lookup_unsubscribe_ne (r : Registry) (p q : Path) (c : ChanId) (h : q ≠ p) :
    lookupReg (unsubscribeListener r p c).1 q = lookupReg r q := by
  simp only [unsubscribeListener]
  by_cases he : (removeChan c ((lookupReg r p).getD [])).isEmpty
  · rw [if_pos he]
    exact lookupReg_removeKey_ne _ _ _ h
  · rw [if_neg he]
    exact lookupReg_setReg_ne _ _ _ _ h

theorem mem_insertChan (c : ChanId) (l : List ChanId) : c ∈ insertChan c l := by
  unfold insertChan
  by_cases h : c ∈ l <;> simp [h]

theorem insertChan_ne_nil (c : ChanId) (l : List ChanId) : insertChan c l ≠ [] := by
  unfold insertChan
  by_cases h : c ∈ l
  · simp only [h, if_true]
    intro hl
    subst hl
    simp at h
  · simp [h]

theorem regInv_nil : RegInv [] := by
  intro p l h
  simp [lookupReg] at h

theorem regInv_subscribe (r : Registry) (p : Path) (c : ChanId) (h : RegInv r) :
    RegInv (subscribeListener r p c).1 := by
  intro q l hq
  by_cases hqp : q = p
  · subst hqp
    rw [lookup_subscribe_self] at hq
    cases hq
    exact insertChan_ne_nil _ _
  · rw [lookup_subscribe_ne _ _ _ _ hqp] at hq
    exact h q l hq

theorem regInv_unsubscribe (r : Registry) (p : Path) (c : ChanId) (h : RegInv r) :
    RegInv (unsubscribeListener r p c).1 := by
  intro q l hq
  by_cases hqp : q = p
  · subst hqp
    rw [lookup_unsubscribe_self] at hq
    by_cases he : (removeChan c (subscribers r q)).isEmpty
    · rw [if_pos he] at hq
      simp at hq
    · rw [if_neg he] at hq
      cases hq
      intro hl
      rw [hl] at he
      simp at he
  · rw [lookup_unsubscribe_ne _ _ _ _ hqp] at hq
    exact h q l hq

theorem regInv_applyRegOp (r : Registry) (op : RegOp) (h : RegInv r) :
    RegInv (applyRegOp r op) := by
  cases op with
  | sub p c => exact regInv_subscribe r p c h
  | unsub p c => exact regInv_unsubscribe r p c h

theorem regInv_applyRegOps (ops : List RegOp) (r : Registry) (h : RegInv r) :
    RegInv (applyRegOps r ops) := by
  induction ops generalizing r with
  | nil => exact h
  | cons op ops ih => exact ih _ (regInv_applyRegOp r op h)

theorem mem_subscribers_subscribe (r : Registry) (p : Path) (c : ChanId) :
    c ∈ subscribers (subscribeListener r p c).1 p := by
  unfold subscribers
  rw [lookup_subscribe_self]
  simpa using mem_insertChan c _

theorem unsubscribe_snd (r : Registry) (p : Path) (c : ChanId) :
    (unsubscribeListener r p c).2 = (removeChan c (subscribers r p)).isEmpty := by
  simp only [unsubscribeListener, subscribers]
  cases hb : (removeChan c ((lookupReg r p).getD [])).isEmpty <;> simp [hb]

theorem processWake_fail_cause (p : PassOutcome) (e : String) (sink : List SinkOp)
    (cause : ExitCause) (h : processWake p = .fail e sink cause) :
    cause = .copyFailed ∨ cause = .flushFailed := by
  unfold processWake at h
  cases hc : p.copyErr with
  | some e2 =>
      rw [hc] at h
      cases h
      exact Or.inl rfl
  | none =>
      rw [hc] at h
      cases hf : p.flushErr with
      | some e2 =>
          rw [hf] at h
          cases h
          exact Or.inr rfl
      | none =>
          rw [hf] at h
          by_cases hx : p.fileExists <;> simp [hx] at h

theorem streamLoopF_pending_nil (fuel timeout : Nat) (ch : WakeChan)
    (hp : ch.pending ≠ 0) (blocks : List BlockEvent) (n : Nat) (tr : List TraceOp) :
    streamLoopF (fuel + 1) timeout ch [] blocks n tr = .stuck n tr := by
  rw [streamLoopF]
  simp [streamStep, hp]

theorem streamLoopF_pass (fuel timeout : Nat) (ch : WakeChan) (hp : ch.pending ≠ 0)
    (p : PassOutcome) (ps : List PassOutcome) (blocks : List BlockEvent) (n : Nat)
    (tr : List TraceOp) :
    streamLoopF (fuel + 1) timeout ch (p :: ps) blocks n tr =
      (match processWake p with
      | .fail e sink cause => .done cause (some e) (n + 1) (tr ++ sinkTrace sink)
      | .finish sink => .done .fileGone none (n + 1) (tr ++ sinkTrace sink)
      | .cont sink =>
          streamLoopF fuel timeout { pending := ch.pending - 1, closed := ch.closed }
            ps blocks (n + 1)
            (tr ++ sinkTrace sink ++ (if timeout ≠ 0 then [.timerReset] else []))) := by
  rw [streamLoopF]
  simp [streamStep, hp]

theorem streamLoopF_closed (fuel timeout : Nat) (passes : List PassOutcome)
    (blocks : List BlockEvent) (n : Nat) (tr : List TraceOp) :
    streamLoopF (fuel + 1) timeout { pending := 0, closed := true } passes blocks n tr =
      .done .closedChan none n tr := by
  rw [streamLoopF]
  simp [streamStep]

theorem streamLoopF_blocked_nil (fuel timeout : Nat) (passes : List PassOutcome)
    (n : Nat) (tr : List TraceOp) :
    streamLoopF (fuel + 1) timeout { pending := 0, closed := false } passes [] n tr =
      .stuck n tr := by
  rw [streamLoopF]
  simp [streamStep]

theorem streamLoopF_blocked_token (fuel timeout : Nat) (passes : List PassOutcome)
    (bs : List BlockEvent) (n : Nat) (tr : List TraceOp) :
    streamLoopF (fuel + 1) timeout { pending := 0, closed := false } passes
        (.tokenArrives :: bs) n tr =
      streamLoopF fuel timeout { pending := 1, closed := false } passes bs n tr := by
  rw [streamLoopF]
  simp [streamStep]

theorem streamLoopF_blocked_close (fuel timeout : Nat) (passes : List PassOutcome)
    (bs : List BlockEvent) (n : Nat) (tr : List TraceOp) :
    streamLoopF (fuel + 1) timeout { pending := 0, closed := false } passes
        (.chanCloses :: bs) n tr =
      streamLoopF fuel timeout { pending := 0, closed := true } passes bs n tr := by
  rw [streamLoopF]
  simp [streamStep]

theorem streamLoopF_blocked_timer (fuel timeout : Nat) (passes : List PassOutcome)
    (bs : List BlockEvent) (n : Nat) (tr : List TraceOp) :
    streamLoopF (fuel + 1) timeout { pending := 0, closed := false } passes
        (.timerFires :: bs) n tr =
      (if getTimerFires timeout then .done .timerFired none n tr
       else streamLoopF fuel timeout { pending := 0, closed := false } passes bs n tr) := by
  rw [streamLoopF]
  simp [streamStep]

theorem timedOut_streamLoopF_zero :
    ∀ fuel ch passes blocks n tr,
      timedOut (streamLoopF fuel 0 ch passes blocks n tr) = false := by
  intro fuel
  induction fuel with
  | zero => intro ch passes blocks n tr; rfl
  | succ fuel ih =>
      intro ch passes blocks n tr
      obtain ⟨pend, cl⟩ := ch
      by_cases hp : pend = 0
      · subst hp
        cases cl with
        | true => rw [streamLoopF_closed]; rfl
        | false =>
            cases blocks with
            | nil => rw [streamLoopF_blocked_nil]; rfl
            | cons b bs =>
                cases b with
                | tokenArrives => rw [streamLoopF_blocked_token]; exact ih _ _ _ _ _
                | chanCloses => rw [streamLoopF_blocked_close]; exact ih _ _ _ _ _
                | timerFires =>
                    rw [streamLoopF_blocked_timer]
                    simp only [getTimerFires]
                    simpa using ih _ _ bs _ _
      · cases passes with
        | nil => rw [streamLoopF_pending_nil _ _ _ hp]; rfl
        | cons p ps =>
            rw [streamLoopF_pass _ _ _ hp]
            cases hw : processWake p with
            | fail e sink cause =>
                rcases processWake_fail_cause p e sink cause hw with h | h <;>
                  (subst h; rfl)
            | finish sink => rfl
            | cont sink => exact ih _ _ _ _ _

theorem routerDrain_exited_empty (evs : List RouterEv) :
    ∀ r r2, routerDrain r evs = .exited r2 → r2 = [] := by
  induction evs with
  | nil =>
      intro r r2 h
      unfold routerDrain at h
      by_cases he : r.isEmpty
      · rw [if_pos he] at h
        cases h
        exact List.isEmpty_iff.mp he
      · rw [if_neg he] at h
        cases h
  | cons e rest ih =>
      intro r r2 h
      unfold routerDrain at h
      by_cases he : r.isEmpty
      · rw [if_pos he] at h
        cases h
        exact List.isEmpty_iff.mp he
      · rw [if_neg he] at h
        cases e <;> exact ih _ _ h

theorem routerDrain_blocked_nonempty (evs : List RouterEv) :
    ∀ r r2, routerDrain r evs = .blockedDraining r2 → r2 ≠ [] := by
  induction evs with
  | nil =>
      intro r r2 h
      unfold routerDrain at h
      by_cases he : r.isEmpty
      · rw [if_pos he] at h
        cases h
      · rw [if_neg he] at h
        cases h
        intro hr
        rw [hr] at he
        simp at he
  | cons e rest ih =>
      intro r r2 h
      unfold routerDrain at h
      by_cases he : r.isEmpty
      · rw [if_pos he] at h
        cases h
      · rw [if_neg he] at h
        cases e <;> exact ih _ _ h

theorem lcStep_starting (op : LcOp) : lcStep .starting op = .starting := by
  cases op with
  | start b => cases b <;> decide
  | stop => decide

/-! ## The claims -/

/-- C5: the engine state only transitions along
Stopped→Starting→Running→Stopping→Stopped; `Start` fails with
`ErrRunning` exactly when the state is not Stopped (hence a concurrent
second `Start`, which observes Starting or Running, is rejected), and
`Stop` fails with `ErrNotRunning` exactly when the state is not
Running. -/
theorem lifecycle_transitions_and_guards (s : EngState) (b : Bool) :
    chainOK (startTrace s b) = true ∧ chainOK (stopTrace s) = true ∧
    ((startOp s b).2 = .errRunning ↔ s ≠ .stopped) ∧
    ((stopOp s).2 = .errNotRunning ↔ s ≠ .running) := by
  cases s <;> cases b <;> decide

/-- C10: when `init` fails during `Start` from Stopped, the call returns
the init error with the state left at Starting; from then on every
`Start` returns `ErrRunning`, every `Stop` returns `ErrNotRunning`,
`IsRunning` reports false, and no sequence of lifecycle calls ever moves
the state again. -/
theorem init_failure_wedges_engine :
    startOp .stopped true = (.starting, .errInit) ∧
    (∀ b, startOp .starting b = (.starting, .errRunning)) ∧
    stopOp .starting = (.starting, .errNotRunning) ∧
    isRunningState .starting = false ∧
    (∀ ops : List LcOp, lcRun .starting ops = .starting) := by
  refine ⟨by decide, ?_, by decide, by decide, ?_⟩
  · intro b
    cases b <;> decide
  · intro ops
    induction ops with
    | nil => rfl
    | cons op ops ih =>
        show lcRun (lcStep .starting op) ops = .starting
        rw [lcStep_starting]
        exact ih

/-- C3 counterexample: the freshly constructed listener already holds
one pending wake, and dispatching to it sends a second token instead of
skipping, so more than one wake can be pending in a listener's
channel. -/
theorem dispatch_two_pending_wakes :
    NewListener.chan.pending = 1 ∧
    trySend NewListener.chan = { pending := 2, closed := false } := by
  decide

/-- C3 amended: dispatch performs a non-blocking send of one wake token
that is skipped only when the channel buffer is full (100 pending
tokens, the channel capacity), so the pending count never exceeds the
capacity and the Router never blocks. -/
theorem dispatch_nonblocking_bounded (c : WakeChan) :
    (c.pending < chanCap → trySend c = { pending := c.pending + 1, closed := c.closed }) ∧
    (chanCap ≤ c.pending → trySend c = c) ∧
    (c.pending ≤ chanCap → (trySend c).pending ≤ chanCap) := by
  unfold trySend
  refine ⟨fun h => if_pos h, fun h => if_neg (by omega), fun h => ?_⟩
  by_cases hlt : c.pending < chanCap
  · rw [if_pos hlt]
    simpa using hlt
  · rw [if_neg hlt]
    exact h

/-- C1: for a listener closed immediately after construction (channel
holding exactly the one pre-armed wake, then closed), `StreamTo` on a
running engine performs exactly one read-to-current-end copy pass
(assuming it succeeds and the source still exists) and then returns no
error upon observing the closed wake signal. -/
theorem closed_listener_single_pass (p : PassOutcome) (timeout fuel : Nat)
    (blocks : List BlockEvent)
    (hc : p.copyErr = none) (hf : p.flushErr = none) (he : p.fileExists = true) :
    StreamTo .running (closeListener NewListener) timeout (fuel + 1 + 1) [p] blocks =
      .session (.done .closedChan none 1
        (sinkTrace [.copyData, .flushOp] ++ (if timeout ≠ 0 then [.timerReset] else []))) := by
  have hw : processWake p = .cont [.copyData, .flushOp] := by
    simp [processWake, hc, hf, he]
  have hch : (closeListener NewListener).chan = { pending := 1, closed := true } := rfl
  unfold StreamTo
  rw [if_pos (by decide : isRunningState .running = true), hch,
    streamLoopF_pass _ _ _ (by decide)]
  simp [hw, streamLoopF_closed]

/-- Witness for C1 at a concrete successful pass. -/
theorem closed_listener_single_pass_witness :
    StreamTo .running (closeListener NewListener) 0 2
        [{ copyErr := none, flushErr := none, fileExists := true }] [] =
      .session (.done .closedChan none 1 (sinkTrace [.copyData, .flushOp])) := by
  have h := closed_listener_single_pass
    { copyErr := none, flushErr := none, fileExists := true } 0 0 [] rfl rfl rfl
  simpa using h

/-- C2 counterexample: when only the flush fails, the session returns
the error but writes no diagnostic message into the sink (the
diagnostic-then-best-effort-flush sequence happens only on copy
failure). -/
theorem flush_failure_writes_no_diagnostic :
    processWake { copyErr := none, flushErr := some "disk full", fileExists := true } =
      .fail "disk full" [.copyData, .flushOp] .flushFailed ∧
    hasDiag [.copyData, .flushOp] = false := ⟨rfl, rfl⟩

/-- C2 amended: on a copy failure the session writes a short diagnostic
into the sink, flushes best-effort, and returns that error; on a flush
failure the session returns that error (logging it) without writing a
diagnostic into the sink.  Either failure ends only this session's
loop. -/
theorem session_failure_reporting (p : PassOutcome) (e : String)
    (fuel timeout pend : Nat) (cl : Bool) (ps : List PassOutcome)
    (blocks : List BlockEvent) (n : Nat) (tr : List TraceOp) :
    (p.copyErr = some e →
      processWake p =
        .fail e [.copyData, .diag ("Could not stream file data: " ++ e), .flushOp]
          .copyFailed ∧
      streamLoopF (fuel + 1) timeout { pending := pend + 1, closed := cl } (p :: ps)
          blocks n tr =
        .done .copyFailed (some e) (n + 1)
          (tr ++ sinkTrace [.copyData, .diag ("Could not stream file data: " ++ e),
            .flushOp])) ∧
    (p.copyErr = none → p.flushErr = some e →
      processWake p = .fail e [.copyData, .flushOp] .flushFailed ∧
      hasDiag [.copyData, .flushOp] = false ∧
      streamLoopF (fuel + 1) timeout { pending := pend + 1, closed := cl } (p :: ps)
          blocks n tr =
        .done .flushFailed (some e) (n + 1) (tr ++ sinkTrace [.copyData, .flushOp])) := by
  constructor
  · intro hc
    have hw : processWake p =
        .fail e [.copyData, .diag ("Could not stream file data: " ++ e), .flushOp]
          .copyFailed := by
      simp [processWake, hc]
    refine ⟨hw, ?_⟩
    rw [streamLoopF_pass _ _ _ (by simp)]
    simp [hw]
  · intro hc hf
    have hw : processWake p = .fail e [.copyData, .flushOp] .flushFailed := by
      simp [processWake, hc, hf]
    refine ⟨hw, rfl, ?_⟩
    rw [streamLoopF_pass _ _ _ (by simp)]
    simp [hw]

/-- Witness for the amended C2 at concrete failing passes. -/
theorem session_failure_reporting_witness :
    streamLoopF 1 0 { pending := 1, closed := false }
        [{ copyErr := some "io", flushErr := none, fileExists := true }] [] 0 [] =
      .done .copyFailed (some "io") 1
        (sinkTrace [.copyData, .diag ("Could not stream file data: " ++ "io"), .flushOp]) ∧
    streamLoopF 1 0 { pending := 1, closed := false }
        [{ copyErr := none, flushErr := some "fl", fileExists := true }] [] 0 [] =
      .done .flushFailed (some "fl") 1 (sinkTrace [.copyData, .flushOp]) := by
  have h1 := ((session_failure_reporting
    { copyErr := some "io", flushErr := none, fileExists := true } "io"
    0 0 0 false [] [] 0 []).1 rfl).2
  have h2 := ((session_failure_reporting
    { copyErr := none, flushErr := some "fl", fileExists := true } "fl"
    0 0 0 false [] [] 0 []).2 rfl rfl).2.2
  exact ⟨h1, h2⟩

/-- C9: when the post-copy existence re-check fails after a successful
copy-and-flush pass, the session ends and the loop returns no error:
source disappearance is normal end-of-stream. -/
theorem source_vanished_ends_ok (p : PassOutcome)
    (fuel timeout pend : Nat) (cl : Bool) (ps : List PassOutcome)
    (blocks : List BlockEvent) (n : Nat) (tr : List TraceOp)
    (hc : p.copyErr = none) (hf : p.flushErr = none) (he : p.fileExists = false) :
    streamLoopF (fuel + 1) timeout { pending := pend + 1, closed := cl } (p :: ps)
        blocks n tr =
      .done .fileGone none (n + 1) (tr ++ sinkTrace [.copyData, .flushOp]) := by
  have hw : processWake p = .finish [.copyData, .flushOp] := by
    simp [processWake, hc, hf, he]
  rw [streamLoopF_pass _ _ _ (by simp)]
  simp [hw]

/-- Witness for C9 at a concrete pass with vanished source. -/
theorem source_vanished_ends_ok_witness :
    streamLoopF 1 0 { pending := 1, closed := false }
        [{ copyErr := none, flushErr := none, fileExists := false }] [] 0 [] =
      .done .fileGone none 1 (sinkTrace [.copyData, .flushOp]) := by
  have h := source_vanished_ends_ok
    { copyErr := none, flushErr := none, fileExists := false }
    0 0 0 false [] [] 0 [] rfl rfl rfl
  simpa using h

/-- C6: with `idleTimeout == 0` the session never ends through the
timer branch (the drained timer of `getTimer` never fires); with a
positive timeout an idle blocked session ends without error when the
timer fires, and every processed wake that continues the loop performs
the `Reset(timeout)` call, restarting the T-window. -/
theorem idle_timeout_semantics :
    (∀ fuel ch passes blocks n tr,
        timedOut (streamLoopF fuel 0 ch passes blocks n tr) = false) ∧
    (∀ fuel timeout passes blocks n tr, timeout ≠ 0 →
        streamLoopF (fuel + 1) timeout { pending := 0, closed := false } passes
          (.timerFires :: blocks) n tr = .done .timerFired none n tr) ∧
    (∀ fuel timeout p ps blocks pend cl n tr, timeout ≠ 0 →
        p.copyErr = none → p.flushErr = none → p.fileExists = true →
        streamLoopF (fuel + 1) timeout { pending := pend + 1, closed := cl } (p :: ps)
            blocks n tr =
          streamLoopF fuel timeout { pending := pend, closed := cl } ps blocks (n + 1)
            (tr ++ sinkTrace [.copyData, .flushOp] ++ [.timerReset])) := by
  refine ⟨timedOut_streamLoopF_zero, ?_, ?_⟩
  · intro fuel timeout passes blocks n tr h
    rw [streamLoopF_blocked_timer]
    simp [getTimerFires, h]
  · intro fuel timeout p ps blocks pend cl n tr h hc hf he
    have hw : processWake p = .cont [.copyData, .flushOp] := by
      simp [processWake, hc, hf, he]
    rw [streamLoopF_pass _ _ _ (by simp)]
    simp [hw, h]

/-- Witness for C6 at concrete sessions. -/
theorem idle_timeout_semantics_witness :
    timedOut (streamLoopF 2 0 { pending := 0, closed := false } [] [.timerFires] 0 []) =
      false ∧
    streamLoopF 1 5 { pending := 0, closed := false } [] [.timerFires] 0 [] =
      .done .timerFired none 0 [] ∧
    streamLoopF 1 5 { pending := 1, closed := false }
        [{ copyErr := none, flushErr := none, fileExists := true }] [] 0 [] =
      streamLoopF 0 5 { pending := 0, closed := false } [] [] 1
        ([] ++ sinkTrace [.copyData, .flushOp] ++ [.timerReset]) := by
  refine ⟨idle_timeout_semantics.1 2 _ _ _ _ _, ?_, ?_⟩
  · exact idle_timeout_semantics.2.1 0 5 [] [] 0 [] (by decide)
  · exact idle_timeout_semantics.2.2 0 5
      { copyErr := none, flushErr := none, fileExists := true } [] [] 0 false 0 []
      (by decide) rfl rfl rfl

/-- Witness for the amended C3 at concrete channels. -/
theorem dispatch_nonblocking_bounded_witness :
    trySend { pending := 5, closed := false } = { pending := 6, closed := false } ∧
    trySend { pending := 100, closed := true } = { pending := 100, closed := true } ∧
    (trySend { pending := 100, closed := false }).pending ≤ chanCap := by
  exact ⟨(dispatch_nonblocking_bounded _).1 (by decide),
    (dispatch_nonblocking_bounded _).2.1 (by decide),
    (dispatch_nonblocking_bounded _).2.2 (by decide)⟩

/-- C4: in every registry state reachable from empty by
subscribe/unsubscribe sequences, an entry for a path exists iff its
subscriber set is nonempty; the watch registration is requested exactly
by a subscribe that finds no entry (which then contains the
subscriber), de-registration is requested exactly by the unsubscribe
that empties the set, and that unsubscribe removes the entry. -/
theorem registry_entry_iff_subscribed (ops : List RegOp) (p : Path) :
    ((lookupReg (applyRegOps [] ops) p).isSome ↔
      subscribers (applyRegOps [] ops) p ≠ []) ∧
    (∀ r c, (subscribeListener r p c).2 = (lookupReg r p).isNone) ∧
    (∀ r c, c ∈ subscribers (subscribeListener r p c).1 p) ∧
    (∀ r c, ((unsubscribeListener r p c).2 = true ↔
      removeChan c (subscribers r p) = [])) ∧
    (∀ r c, (unsubscribeListener r p c).2 = true →
      lookupReg (unsubscribeListener r p c).1 p = none) := by
  have hinv := regInv_applyRegOps ops [] regInv_nil
  refine ⟨?_, fun r c => rfl, fun r c => mem_subscribers_subscribe r p c, ?_, ?_⟩
  · constructor
    · intro hs
      cases hl : lookupReg (applyRegOps [] ops) p with
      | none => rw [hl] at hs; cases hs
      | some l =>
          simp only [subscribers]
          rw [hl]
          simpa using hinv p l hl
    · intro hne
      cases hl : lookupReg (applyRegOps [] ops) p with
      | none =>
          simp only [subscribers] at hne
          rw [hl] at hne
          simp at hne
      | some l => rfl
  · intro r c
    rw [unsubscribe_snd]
    exact List.isEmpty_iff
  · intro r c h2
    rw [unsubscribe_snd] at h2
    rw [lookup_unsubscribe_self, if_pos h2]

/-- Witness for C4 at a concrete reachable registry. -/
theorem registry_entry_iff_subscribed_witness :
    ((lookupReg (applyRegOps [] [RegOp.sub "a" 1]) "a").isSome ↔
      subscribers (applyRegOps [] [RegOp.sub "a" 1]) "a" ≠ []) ∧
    1 ∈ subscribers (subscribeListener [] "a" 1).1 "a" ∧
    lookupReg (unsubscribeListener [("a", [1])] "a" 1).1 "a" = none := by
  obtain ⟨h1, _, h3, _, h5⟩ := registry_entry_iff_subscribed [RegOp.sub "a" 1] "a"
  exact ⟨h1, h3 [] 1, h5 [("a", [1])] 1 (by decide)⟩

/-- C8: a failure of the backend watch registration during subscribe is
logged as a diagnostic and does not fail the subscribe: the resulting
registry is identical to the success case and the listener's channel is
in the path's set either way. -/
theorem watch_registration_failure_best_effort (r : Registry) (p : Path) (c : ChanId)
    (e : String) :
    (subscribeListenerLogged r p c (some e)).1 = (subscribeListenerLogged r p c none).1 ∧
    (subscribeListenerLogged r p c (some e)).1 = (subscribeListener r p c).1 ∧
    c ∈ subscribers (subscribeListenerLogged r p c (some e)).1 p ∧
    ((lookupReg r p).isNone →
      ("Failed to register new fsNotify listener for file " ++ p ++ ": " ++ e) ∈
        (subscribeListenerLogged r p c (some e)).2) := by
  refine ⟨rfl, rfl, mem_subscribers_subscribe r p c, ?_⟩
  intro hf
  simp [subscribeListenerLogged, subscribeListener, hf]

/-- Witness for C8 at a concrete fresh subscribe with failing watch
registration. -/
theorem watch_registration_failure_best_effort_witness :
    (subscribeListenerLogged [] "f" 0 (some "boom")).1 =
      (subscribeListenerLogged [] "f" 0 none).1 ∧
    0 ∈ subscribers (subscribeListenerLogged [] "f" 0 (some "boom")).1 "f" ∧
    ("Failed to register new fsNotify listener for file " ++ "f" ++ ": " ++ "boom") ∈
      (subscribeListenerLogged [] "f" 0 (some "boom")).2 := by
  obtain ⟨h1, _, h3, h4⟩ := watch_registration_failure_best_effort [] "f" 0 "boom"
  exact ⟨h1, h3, h4 rfl⟩

/-- C7: once the change-event channel is closed the router enters the
drain phase, which services subscribe and unsubscribe requests while
the registry is nonempty and exits exactly when it is empty (so every
in-flight session can still unsubscribe, and the `threads.Wait` in
`Stop` can return only after the registry has drained). -/
theorem router_shutdown_protocol :
    (∀ r evs r2, routerDrain r evs = .exited r2 → r2 = []) ∧
    (∀ r evs r2, routerDrain r evs = .blockedDraining r2 → r2 ≠ []) ∧
    (∀ evs, routerDrain [] evs = .exited []) ∧
    (∀ r p c rest, ¬ r.isEmpty →
        routerDrain r (.sub p c :: rest) = routerDrain (subscribeListener r p c).1 rest) ∧
    (∀ r p c rest, ¬ r.isEmpty →
        routerDrain r (.unsub p c :: rest) =
          routerDrain (unsubscribeListener r p c).1 rest) ∧
    (∀ r rest, routerRun r (.closeEvents :: rest) = routerDrain r rest) ∧
    (∀ r p rest, routerRun r (.change p :: rest) = routerRun r rest) := by
  refine ⟨fun r evs => routerDrain_exited_empty evs r,
    fun r evs => routerDrain_blocked_nonempty evs r, ?_, ?_, ?_, fun r rest => rfl,
    fun r p rest => rfl⟩
  · intro evs
    cases evs <;> rfl
  · intro r p c rest h
    rw [routerDrain, if_neg h]
  · intro r p c rest h
    rw [routerDrain, if_neg h]

/-- Witness for C7 at concrete drain runs. -/
theorem router_shutdown_protocol_witness :
    ([] : Registry) = [] ∧
    ([("a", [1])] : Registry) ≠ [] ∧
    routerDrain [("a", [1])] [.sub "b" 2] =
      routerDrain (subscribeListener [("a", [1])] "b" 2).1 [] ∧
    routerDrain [("a", [1])] [.unsub "a" 1] =
      routerDrain (unsubscribeListener [("a", [1])] "a" 1).1 [] := by
  obtain ⟨h1, h2, h3, h4, h5, h6, h7⟩ := router_shutdown_protocol
  exact ⟨h1 [] [] [] rfl, h2 [("a", [1])] [] [("a", [1])] rfl,
    h4 [("a", [1])] "b" 2 [] (by decide), h5 [("a", [1])] "a" 1 [] (by decide)⟩

end FileStreamer
